import Mathlib

/-!
Verification of the stms-staging MCP server adapter (src/server.py).

The server is a stateless protocol adapter: each tool builds one HTTP
request, issues it through a configured client, and normalizes the raw
response into a uniform envelope.  We embed the adapter shallowly:

* JSON values are an inductive `Json`; the external JSON parser
  (Python's `response.json()`) is abstracted as a function
  `String → Except String Json` (success value or exception message).
* The network is abstracted as a function `HttpCall → Response`.
* Python dicts appear as association lists `List (String × Json)`,
  preserving insertion order, so key presence/absence is observable.
* Python string slicing `s[:n]` is `strTake s n` (first `n` characters);
  Python string truthiness is `strTruthy` (empty and absent are falsy).
* Each tool returns the outgoing call(s) it issued together with the
  envelope it returns, so "what was sent" is part of the model.
-/

/-- JSON values, the data exchanged with the staging API. -/
inductive Json where
  | null : Json
  | bool (b : Bool) : Json
  | num (n : Int) : Json
  | str (s : String) : Json
  | arr (elems : List Json) : Json
  | obj (fields : List (String × Json)) : Json
deriving Repr

/-- A completed HTTP response: status code and body text. -/
structure Response where
  status_code : Int
  text : String
deriving Repr, DecidableEq

/-- An outgoing HTTP request: verb, path, per-request header overrides,
and the JSON body transmitted (none when no body is sent). -/
structure HttpCall where
  method : String
  path : String
  headers : List (String × String)
  body : Option Json
deriving Repr

/-- Python slicing s[:n]: the first at most n characters of s. -/
def strTake (s : String) (n : Nat) : String :=
  ⟨s.data.take n⟩

/-- Python truthiness of an optional string: None and "" are falsy. -/
def strTruthy : Option String → Bool
  | none => false
  | some s => !s.isEmpty

/-- Field lookup in a JSON object (none on non-objects). -/
def json_lookup (k : String) : Json → Option Json
  | .obj fields => fields.lookup k
  | _ => none

/-- format_response (server.py lines 42-55): try to parse the body as
JSON; on success return status_code and data; on failure return
status_code, the exception message, and the first 1000 characters of the
body (None when the body is empty). `parse` abstracts `response.json()`. -/
def format_response (parse : String → Except String Json) (r : Response) :
    List (String × Json) :=
  match parse r.text with
  | .ok data =>
      [("status_code", .num r.status_code), ("data", data)]
  | .error e =>
      [("status_code", .num r.status_code), ("error", .str e),
       ("raw_text", if r.text = "" then Json.null else Json.str (strTake r.text 1000))]

/-- C1: if the body parses as JSON, format_response returns exactly
{status_code, data}, for every status code; the envelope has no error or
raw_text keys. -/
theorem format_response_json_success
    (parse : String → Except String Json) (r : Response) (j : Json)
    (h : parse r.text = .ok j) :
    format_response parse r = [("status_code", .num r.status_code), ("data", j)]
    ∧ "error" ∉ (format_response parse r).map Prod.fst
    ∧ "raw_text" ∉ (format_response parse r).map Prod.fst := by
  unfold format_response
  rw [h]
  refine ⟨rfl, ?_, ?_⟩ <;> simp

/-- Witness for C1: a 404 whose body parses as an object is still
reported as data. -/
theorem format_response_json_success_witness :
    format_response (fun _ => .ok (Json.obj [("msg", Json.str "not found")]))
        { status_code := 404, text := "x" }
      = [("status_code", .num 404), ("data", Json.obj [("msg", Json.str "not found")])] := by
  exact (format_response_json_success
    (fun _ => .ok (Json.obj [("msg", Json.str "not found")]))
    { status_code := 404, text := "x" }
    (Json.obj [("msg", Json.str "not found")]) rfl).1

/-- C3: if the body fails to parse as JSON, format_response returns
exactly {status_code, error, raw_text}, where error is the (non-empty)
exception message, raw_text is the first at most 1000 characters of the
body, and raw_text is None (not "") when the body is empty. -/
theorem format_response_json_failure
    (parse : String → Except String Json) (r : Response) (e : String)
    (h : parse r.text = .error e) (hne : e ≠ "") :
    format_response parse r
      = [("status_code", .num r.status_code), ("error", .str e),
         ("raw_text", if r.text = "" then Json.null else Json.str (strTake r.text 1000))]
    ∧ (strTake r.text 1000).length ≤ 1000
    ∧ Json.str e ≠ Json.str "" := by
  refine ⟨?_, ?_, by simpa using hne⟩
  · unfold format_response
    rw [h]
  · show (String.mk (r.text.data.take 1000)).length ≤ 1000
    simpa using List.length_take_le 1000 r.text.data

/-- Witness for C3: a non-JSON body yields the error envelope, and an
empty body yields a None raw_text. -/
theorem format_response_json_failure_witness :
    format_response (fun _ => .error "Expecting value") { status_code := 500, text := "oops" }
      = [("status_code", .num 500), ("error", .str "Expecting value"),
         ("raw_text", Json.str "oops")]
    ∧ format_response (fun _ => .error "Expecting value") { status_code := 500, text := "" }
      = [("status_code", .num 500), ("error", .str "Expecting value"),
         ("raw_text", Json.null)] := by
  constructor
  · have h := (format_response_json_failure (fun _ => .error "Expecting value")
      { status_code := 500, text := "oops" } "Expecting value" rfl (by decide)).1
    simpa [strTake] using h
  · have h := (format_response_json_failure (fun _ => .error "Expecting value")
      { status_code := 500, text := "" } "Expecting value" rfl (by decide)).1
    simp at h
    exact h

/-- Configured base URL (server.py line 24): environment variable
STMS_STAGING_URL with a default. `env` abstracts os.getenv. -/
def STAGING_URL (env : String → Option String) : String :=
  (env "STMS_STAGING_URL").getD "https://stms-api.noonstg.partners"

/-- Configured auth cookie (server.py line 25): environment variable
STMS_STAGING_COOKIE, defaulting to the empty string. -/
def STAGING_COOKIE (env : String → Option String) : String :=
  (env "STMS_STAGING_COOKIE").getD ""

/-- The configuration of an httpx.Client as constructed by get_client:
base URL, default headers, request timeout in seconds, TLS verification. -/
structure ClientConfig where
  base_url : String
  headers : List (String × String)
  timeout_seconds : Int
  verify : Bool
deriving Repr, DecidableEq

/-- get_client (server.py lines 28-39): an httpx.Client bound to the
staging base URL with Cookie/Content-Type/Accept default headers, a
30-second timeout, and TLS verification enabled. -/
def get_client (env : String → Option String) : ClientConfig :=
  { base_url := STAGING_URL env,
    headers := [("Cookie", STAGING_COOKIE env),
                ("Content-Type", "application/json"),
                ("Accept", "application/json")],
    timeout_seconds := 30,
    verify := true }

/-- C8: every client produced by get_client carries a Cookie header equal
to the configured cookie (possibly empty), Content-Type and Accept set to
application/json, a 30-second timeout, and TLS verification enabled. -/
theorem get_client_defaults (env : String → Option String) :
    (get_client env).headers.lookup "Cookie" = some (STAGING_COOKIE env)
    ∧ (get_client env).headers.lookup "Content-Type" = some "application/json"
    ∧ (get_client env).headers.lookup "Accept" = some "application/json"
    ∧ (get_client env).base_url = STAGING_URL env
    ∧ (get_client env).timeout_seconds = 30
    ∧ (get_client env).verify = true := by
  refine ⟨rfl, ?_, ?_, rfl, rfl, rfl⟩ <;> simp [get_client, List.lookup]

/-- get_config (server.py lines 506-512): the stms://config resource,
reporting the staging URL and whether a cookie is configured (Python
bool() truthiness of the cookie string), never the cookie itself. -/
def get_config (env : String → Option String) : Json :=
  .obj [("staging_url", .str (STAGING_URL env)),
        ("cookie_configured", .bool (!(STAGING_COOKIE env).isEmpty))]

/-- C9: get_config returns exactly staging_url and a boolean
cookie_configured; two environments with the same staging URL whose
cookies agree on emptiness produce identical output, so the output
reveals at most one boolean about the cookie. -/
theorem get_config_no_cookie_leak (env₁ env₂ : String → Option String)
    (hurl : STAGING_URL env₁ = STAGING_URL env₂)
    (hcookie : (STAGING_COOKIE env₁).isEmpty = (STAGING_COOKIE env₂).isEmpty) :
    get_config env₁
      = .obj [("staging_url", .str (STAGING_URL env₁)),
              ("cookie_configured", .bool (!(STAGING_COOKIE env₁).isEmpty))]
    ∧ get_config env₁ = get_config env₂ := by
  refine ⟨rfl, ?_⟩
  unfold get_config
  rw [hurl, hcookie]

/-- Witness for C9: two distinct non-empty cookies give the same config
output. -/
theorem get_config_no_cookie_leak_witness :
    get_config (fun k => if k = "STMS_STAGING_COOKIE" then some "secret-a" else none)
      = get_config (fun k => if k = "STMS_STAGING_COOKIE" then some "secret-b" else none) :=
  (get_config_no_cookie_leak
    (fun k => if k = "STMS_STAGING_COOKIE" then some "secret-a" else none)
    (fun k => if k = "STMS_STAGING_COOKIE" then some "secret-b" else none)
    (by decide) (by decide)).2

/-- Python str.upper, applied characterwise (model of method.upper()). -/
def strUpper (s : String) : String :=
  ⟨s.data.map Char.toUpper⟩

/-- api_request (server.py lines 477-499): generic escape-hatch request.
The method is uppercased; GET/POST/PUT/DELETE issue one HTTP call
(GET/DELETE without a body, POST/PUT with the supplied body or an empty
mapping); any other verb short-circuits with an error and issues no
call.  `net` abstracts the transport; the first component records the
calls issued. -/
def api_request (net : HttpCall → Response) (parse : String → Except String Json)
    (method path : String) (body : Option Json) :
    List HttpCall × List (String × Json) :=
  let M := strUpper method
  if M = "GET" then
    let call : HttpCall := { method := "GET", path := path, headers := [], body := none }
    ([call], format_response parse (net call))
  else if M = "POST" then
    let call : HttpCall :=
      { method := "POST", path := path, headers := [], body := some (body.getD (.obj [])) }
    ([call], format_response parse (net call))
  else if M = "PUT" then
    let call : HttpCall :=
      { method := "PUT", path := path, headers := [], body := some (body.getD (.obj [])) }
    ([call], format_response parse (net call))
  else if M = "DELETE" then
    let call : HttpCall := { method := "DELETE", path := path, headers := [], body := none }
    ([call], format_response parse (net call))
  else
    ([], [("error", .str ("Unsupported method: " ++ M))])

/-- C2: a method whose uppercased form is not GET/POST/PUT/DELETE issues
no HTTP call and returns exactly the unsupported-method error. -/
theorem api_request_unsupported_method
    (net : HttpCall → Response) (parse : String → Except String Json)
    (method path : String) (body : Option Json)
    (h : strUpper method ∉ ["GET", "POST", "PUT", "DELETE"]) :
    api_request net parse method path body
      = ([], [("error", .str ("Unsupported method: " ++ strUpper method))]) := by
  simp only [List.mem_cons, List.not_mem_nil, or_false, not_or] at h
  obtain ⟨h1, h2, h3, h4⟩ := h
  unfold api_request
  simp [h1, h2, h3, h4]

/-- Witness for C2: PATCH is rejected without a network call. -/
theorem api_request_unsupported_method_witness :
    api_request (fun _ => { status_code := 200, text := "" }) (fun _ => .error "e")
        "patch" "/x" none
      = ([], [("error", .str "Unsupported method: PATCH")]) := by
  have h := api_request_unsupported_method
    (fun _ => { status_code := 200, text := "" }) (fun _ => .error "e")
    "patch" "/x" none (by decide)
  simpa [strUpper] using h

/-- C4: a method whose uppercased form is GET/POST/PUT/DELETE issues
exactly one HTTP call with that verb and the given path and no header
overrides; GET and DELETE transmit no body, POST and PUT transmit the
supplied body or an empty mapping. -/
theorem api_request_supported_method
    (net : HttpCall → Response) (parse : String → Except String Json)
    (method path : String) (body : Option Json)
    (h : strUpper method ∈ ["GET", "POST", "PUT", "DELETE"]) :
    ∃ call : HttpCall,
      (api_request net parse method path body).1 = [call]
      ∧ call.method = strUpper method
      ∧ call.path = path
      ∧ call.headers = []
      ∧ (api_request net parse method path body).2 = format_response parse (net call)
      ∧ (strUpper method = "GET" ∨ strUpper method = "DELETE" → call.body = none)
      ∧ (strUpper method = "POST" ∨ strUpper method = "PUT" →
          call.body = some (body.getD (.obj []))) := by
  simp only [List.mem_cons, List.not_mem_nil, or_false] at h
  rcases h with h | h | h | h
  · exact ⟨⟨"GET", path, [], none⟩,
      by simp [api_request, h], h.symm, rfl, rfl, by simp [api_request, h],
      fun _ => rfl, fun hc => by simp [h] at hc⟩
  · exact ⟨⟨"POST", path, [], some (body.getD (.obj []))⟩,
      by simp [api_request, h], h.symm, rfl, rfl, by simp [api_request, h],
      fun hc => by simp [h] at hc, fun _ => rfl⟩
  · exact ⟨⟨"PUT", path, [], some (body.getD (.obj []))⟩,
      by simp [api_request, h], h.symm, rfl, rfl, by simp [api_request, h],
      fun hc => by simp [h] at hc, fun _ => rfl⟩
  · exact ⟨⟨"DELETE", path, [], none⟩,
      by simp [api_request, h], h.symm, rfl, rfl, by simp [api_request, h],
      fun _ => rfl, fun hc => by simp [h] at hc⟩

/-- Witness for C4: a lowercase post with no body sends one POST to the
given path carrying an empty mapping. -/
theorem api_request_supported_method_witness :
    (api_request (fun _ => { status_code := 200, text := "" }) (fun _ => .error "e")
        "post" "/user/list" none).1
      = [{ method := "POST", path := "/user/list", headers := [], body := some (.obj []) }] := by
  obtain ⟨call, h1, h2, h3, h4, _, _, h7⟩ := api_request_supported_method
    (fun _ => { status_code := 200, text := "" }) (fun _ => .error "e")
    "post" "/user/list" none (by decide)
  have hm : strUpper "post" = "POST" := by decide
  rw [hm] at h2 h7
  have hb := h7 (Or.inl rfl)
  rw [h1]
  cases call
  simp_all

/-- give_access_to_user (server.py lines 72-79): POST to
/access-control/access-requests with a payload whose scope is hardcoded
to {scope_type: "default", scope_code: None}; the scope_type and
scope_code parameters are never read. -/
def give_access_to_user (net : HttpCall → Response) (parse : String → Except String Json)
    (idp_user_code entity_type entity_code : String)
    (scope_type : String) (scope_code : Option String) :
    HttpCall × List (String × Json) :=
  let call : HttpCall :=
    { method := "POST",
      path := "/access-control/access-requests",
      headers := [],
      body := some (.obj
        [("action", .str "create"),
         ("idp_user_code", .str idp_user_code),
         ("entity", .obj [("entity_type", .str entity_type),
                          ("entity_code", .str entity_code)]),
         ("scope", .obj [("scope_type", .str "default"),
                         ("scope_code", .null)]),
         ("reason", .str "Access granted by MCP server")]) }
  (call, format_response parse (net call))

/-- C5: the scope field of the payload sent by give_access_to_user is the
fixed value {scope_type: "default", scope_code: null}, and two calls
differing only in the scope_type/scope_code arguments send identical
requests and return identical results. -/
theorem give_access_scope_fixed
    (net : HttpCall → Response) (parse : String → Except String Json)
    (idp_user_code entity_type entity_code : String)
    (scope_type scope_type' : String) (scope_code scope_code' : Option String) :
    ((give_access_to_user net parse idp_user_code entity_type entity_code
        scope_type scope_code).1.body).bind (json_lookup "scope")
      = some (.obj [("scope_type", .str "default"), ("scope_code", .null)])
    ∧ give_access_to_user net parse idp_user_code entity_type entity_code
        scope_type scope_code
      = give_access_to_user net parse idp_user_code entity_type entity_code
        scope_type' scope_code' := by
  exact ⟨rfl, rfl⟩

/-- list_users payload construction (server.py lines 128-137): page and
page_size always present; facility_code, designation_code and search
added only when truthy (Python: non-None, non-empty). -/
def list_users_payload (facility_code designation_code search : Option String)
    (page page_size : Int) : List (String × Json) :=
  let payload : List (String × Json) :=
    [("page", .num page), ("page_size", .num page_size)]
  let payload := if strTruthy facility_code
    then payload ++ [("facility_code", .str (facility_code.getD ""))] else payload
  let payload := if strTruthy designation_code
    then payload ++ [("designation_code", .str (designation_code.getD ""))] else payload
  if strTruthy search then payload ++ [("search", .str (search.getD ""))] else payload

/-- list_users (server.py lines 110-141): POST the constructed payload to
/user/list. -/
def list_users (net : HttpCall → Response) (parse : String → Except String Json)
    (facility_code designation_code search : Option String)
    (page page_size : Int) : HttpCall × List (String × Json) :=
  let call : HttpCall :=
    { method := "POST",
      path := "/user/list",
      headers := [],
      body := some (.obj (list_users_payload facility_code designation_code search
        page page_size)) }
  (call, format_response parse (net call))

/-- C6: when facility_code, designation_code and search are all unset
(absent or empty), the list_users payload is exactly {page, page_size};
and in general each unset optional parameter is omitted from the payload
rather than sent as null or empty. -/
theorem list_users_omits_unset
    (facility_code designation_code search : Option String) (page page_size : Int)
    (hf : strTruthy facility_code = false)
    (hd : strTruthy designation_code = false)
    (hs : strTruthy search = false) :
    list_users_payload facility_code designation_code search page page_size
      = [("page", .num page), ("page_size", .num page_size)]
    ∧ (∀ (fc dc s : Option String) (p ps : Int), strTruthy fc = false →
        "facility_code" ∉ (list_users_payload fc dc s p ps).map Prod.fst)
    ∧ (∀ (fc dc s : Option String) (p ps : Int), strTruthy dc = false →
        "designation_code" ∉ (list_users_payload fc dc s p ps).map Prod.fst)
    ∧ (∀ (fc dc s : Option String) (p ps : Int), strTruthy s = false →
        "search" ∉ (list_users_payload fc dc s p ps).map Prod.fst) := by
  refine ⟨by simp [list_users_payload, hf, hd, hs], ?_, ?_, ?_⟩
  · intro fc dc s p ps h
    unfold list_users_payload
    rcases hdc : strTruthy dc <;> rcases hsc : strTruthy s <;> simp [h, hdc, hsc]
  · intro fc dc s p ps h
    unfold list_users_payload
    rcases hfc : strTruthy fc <;> rcases hsc : strTruthy s <;> simp [h, hfc, hsc]
  · intro fc dc s p ps h
    unfold list_users_payload
    rcases hfc : strTruthy fc <;> rcases hdc : strTruthy dc <;> simp [h, hfc, hdc]

/-- Witness for C6: no filters (one absent, one empty, one absent) sends
exactly page and page_size. -/
theorem list_users_omits_unset_witness :
    list_users_payload none (some "") none 2 10
      = [("page", .num 2), ("page_size", .num 10)] :=
  (list_users_omits_unset none (some "") none 2 10 rfl rfl rfl).1

/-- Per-request Accept header selection in get_report (server.py lines
384-388): csv and tsv set an Accept override, anything else sets none. -/
def report_headers (format : String) : List (String × String) :=
  if format = "csv" then [("Accept", "text/csv")]
  else if format = "tsv" then [("Accept", "text/tab-separated-values")]
  else []

/-- get_report (server.py lines 374-397): GET /reports/{report_name} with
the format-selected headers; for csv/tsv return the first 5000 characters
of the body as data without JSON parsing, otherwise the normalized
envelope. -/
def get_report (net : HttpCall → Response) (parse : String → Except String Json)
    (report_name format : String) : HttpCall × List (String × Json) :=
  let call : HttpCall :=
    { method := "GET",
      path := "/reports/" ++ report_name,
      headers := report_headers format,
      body := none }
  let r := net call
  if format = "csv" ∨ format = "tsv" then
    (call, [("status_code", .num r.status_code), ("data", .str (strTake r.text 5000))])
  else
    (call, format_response parse r)

/-- C7: get_report with format csv sends Accept: text/csv (and tsv sends
Accept: text/tab-separated-values) and returns status_code plus the first
at most 5000 characters of the body as data; the result does not depend
on the JSON parser, i.e. no JSON parse of the body is attempted. -/
theorem get_report_textual_formats
    (net : HttpCall → Response) (parse : String → Except String Json)
    (report_name : String) :
    (get_report net parse report_name "csv").1.headers = [("Accept", "text/csv")]
    ∧ (get_report net parse report_name "tsv").1.headers
        = [("Accept", "text/tab-separated-values")]
    ∧ (get_report net parse report_name "csv").2
        = [("status_code", .num (net (get_report net parse report_name "csv").1).status_code),
           ("data", .str (strTake (net (get_report net parse report_name "csv").1).text 5000))]
    ∧ (strTake (net (get_report net parse report_name "csv").1).text 5000).length ≤ 5000
    ∧ (∀ parse' : String → Except String Json,
        get_report net parse report_name "csv" = get_report net parse' report_name "csv")
    ∧ (∀ parse' : String → Except String Json,
        get_report net parse report_name "tsv" = get_report net parse' report_name "tsv") := by
  refine ⟨rfl, rfl, rfl, ?_, fun _ => rfl, fun _ => rfl⟩
  show (String.mk _).length ≤ 5000
  simpa using List.length_take_le 5000
    (net (get_report net parse report_name "csv").1).text.data

/-- C10: for any format other than csv and tsv, get_report sends no
Accept-header override, returns the normalized envelope of the response,
and behaves identically to format json. -/
theorem get_report_default_json
    (net : HttpCall → Response) (parse : String → Except String Json)
    (report_name format : String)
    (hcsv : format ≠ "csv") (htsv : format ≠ "tsv") :
    (get_report net parse report_name format).1.headers = []
    ∧ (get_report net parse report_name format).2
        = format_response parse (net (get_report net parse report_name format).1)
    ∧ get_report net parse report_name format = get_report net parse report_name "json" := by
  have hh : report_headers format = [] := by
    unfold report_headers
    simp [hcsv, htsv]
  have hj : report_headers "json" = [] := by decide
  refine ⟨by simp [get_report, hh, hcsv, htsv], ?_, ?_⟩
  · unfold get_report
    simp [hcsv, htsv]
  · unfold get_report
    rw [hh, hj]
    simp [hcsv, htsv]

/-- Witness for C10: format xml behaves exactly like format json. -/
theorem get_report_default_json_witness :
    (get_report (fun _ => { status_code := 200, text := "" }) (fun _ => .error "e")
        "attendance" "xml").1.headers = []
    ∧ get_report (fun _ => { status_code := 200, text := "" }) (fun _ => .error "e")
        "attendance" "xml"
      = get_report (fun _ => { status_code := 200, text := "" }) (fun _ => .error "e")
        "attendance" "json" := by
  obtain ⟨h1, _, h3⟩ := get_report_default_json
    (fun _ => { status_code := 200, text := "" }) (fun _ => .error "e")
    "attendance" "xml" (by decide) (by decide)
  exact ⟨h1, h3⟩
